import Mathlib

/-!
Shallow embedding of the Dubai real-estate price prediction core
(`src/chart/app/model.py`) over exact rational arithmetic.

Python floats are idealised as `ℚ`; `round(x, 2)` is modelled as rounding
to the nearest multiple of 1/100 with ties to even (Python's banker's
rounding).  A request dictionary (`Dict[str, Any]`) is modelled as a
structure of optional fields; `dict.get(key, default)` becomes
`Option.getD`.  Python division by zero raises `ZeroDivisionError`, so the
one unguarded division (in `predict_rent_price`) makes that function
return an `Option`, with `none` standing for the raised exception.
-/

namespace DubaiRealEstate

/-- Round a rational to the nearest integer, ties to even
(the rounding rule of Python's builtin `round`). -/
def roundHalfEven (q : ℚ) : ℤ :=
  let f := ⌊q⌋
  let r := q - (f : ℚ)
  if r < 1/2 then f
  else if 1/2 < r then f + 1
  else if f % 2 = 0 then f else f + 1

/-- Model of Python's `round(x, 2)`: round to 2 decimal places. -/
def round2 (q : ℚ) : ℚ := (roundHalfEven (q * 100) : ℚ) / 100

/-- The request dictionary passed to the model layer.  Every key of
`SalePredictionRequest` / `RentPredictionRequest` (schemas.py) may be
present (`some`) or absent (`none`), matching `request_data.get(...)`
semantics in model.py. -/
structure RequestData where
  property_type : Option String := none
  location : Option String := none
  bedrooms : Option ℚ := none
  bathrooms : Option ℚ := none
  area_sqft : Option ℚ := none
  floor : Option ℚ := none
  building_age_years : Option ℚ := none
  has_parking : Option Bool := none
  has_balcony : Option Bool := none
  has_gym : Option Bool := none
  has_pool : Option Bool := none
  near_metro : Option Bool := none
  furnished : Option Bool := none
  contract_type : Option String := none
  deriving Repr

/-- Python `dict.get(key, default)` over an association list. -/
def lookupD (m : List (String × ℚ)) (k : String) (d : ℚ) : ℚ :=
  (m.lookup k).getD d

/-- Location encoding table (model.py lines 58-63; repeated verbatim in
`_get_location_factor`, lines 136-141). -/
def location_map : List (String × ℚ) :=
  [("dubai_marina", 1), ("downtown", 12/10), ("business_bay", 11/10),
   ("jlt", 9/10), ("jbr", 1), ("difc", 13/10), ("palm_jumeirah", 14/10),
   ("emirates_hills", 12/10), ("arabian_ranches", 8/10), ("dubai_hills", 9/10),
   ("motor_city", 7/10)]

/-- Property type encoding table (model.py lines 66-69). -/
def property_type_map : List (String × ℚ) :=
  [("apartment", 1), ("villa", 15/10), ("townhouse", 12/10),
   ("studio", 7/10), ("penthouse", 18/10)]

/-- Python `int(b)` on a boolean. -/
def boolToRat (b : Bool) : ℚ := if b then 1 else 0

/-- `DubaiRealEstateModel.encode_features` (model.py lines 55-90).
The `if request_data.get("floor") else 0.1` guards test Python truthiness:
an absent key or a value of exactly 0 are both falsy. -/
def encode_features (r : RequestData) : List ℚ :=
  let location_factor := lookupD location_map (r.location.getD "dubai_marina") 1
  let property_factor := lookupD property_type_map (r.property_type.getD "apartment") 1
  [ r.bedrooms.getD 0,
    r.bathrooms.getD 0,
    r.area_sqft.getD 1000,
    location_factor,
    property_factor,
    (match r.floor with
     | some v => if v = 0 then 1/10 else v / 50
     | none => 1/10),
    (match r.building_age_years with
     | some v => if v = 0 then 1/10 else v / 50
     | none => 1/10),
    boolToRat (r.has_parking.getD true),
    boolToRat (r.has_balcony.getD false),
    boolToRat (r.has_gym.getD false),
    boolToRat (r.has_pool.getD false),
    boolToRat (r.near_metro.getD false),
    boolToRat (r.furnished.getD false) ]

/-- A price model is anything exposing `predict` on a feature row
(the single row of the `(1, 13)` matrix built by `encode_features`). -/
def PriceModel : Type := List ℚ → ℚ

/-- `DummyModel.predict` (model.py lines 39-51), on one row of `X`. -/
def DummyModel.predict (row : List ℚ) : ℚ :=
  let base_price : ℚ := 500000
  let location_factor := row.getD 3 0 * (15/10)
  let size_factor := (row.getD 2 0 / 1000) * (12/10)
  let amenities := ((row.drop 7).sum) * 50000
  base_price + location_factor * 200000 + size_factor * 300000 + amenities

/-- `DubaiRealEstateModel._get_location_factor` (model.py lines 134-142). -/
def get_location_factor (location : String) : ℚ :=
  lookupD location_map location 1

/-- The dictionary returned by `predict_sale_price`.  The timestamp is an
opaque string produced by the caller-supplied clock. -/
structure SaleResult where
  predicted_price_aed : ℚ
  price_per_sqft_aed : ℚ
  location_premium : ℚ
  confidence_score : ℚ
  model_version : String
  prediction_timestamp : String
  deriving Repr

/-- The dictionary returned by `predict_rent_price`: the sale fields plus
`rental_type`. -/
structure RentResult where
  predicted_price_aed : ℚ
  price_per_sqft_aed : ℚ
  location_premium : ℚ
  confidence_score : ℚ
  model_version : String
  prediction_timestamp : String
  rental_type : String
  deriving Repr

/-- `DubaiRealEstateModel.predict_sale_price` (model.py lines 92-109).
`model` is the loaded `self.model` (its `predict` on one row), `ver` is
`self.model_version`, and `now` the `datetime.utcnow().isoformat()+"Z"`
string. -/
def predict_sale_price (model : PriceModel) (ver now : String)
    (r : RequestData) : SaleResult :=
  let features := encode_features r
  let prediction := model features
  let area_sqft := r.area_sqft.getD 1000
  let price_per_sqft := if 0 < area_sqft then prediction / area_sqft else 0
  let location_factor := get_location_factor (r.location.getD "dubai_marina")
  { predicted_price_aed := round2 prediction,
    price_per_sqft_aed := round2 price_per_sqft,
    location_premium := round2 (location_factor - 1),
    confidence_score := 85/100,
    model_version := ver,
    prediction_timestamp := now }

/-- `DubaiRealEstateModel.predict_rent_price` (model.py lines 111-132).
Returns `none` exactly when the Python code raises `ZeroDivisionError`,
i.e. when the unguarded division `... / request_data.get("area_sqft", 1000)`
divides by zero. -/
def predict_rent_price (model : PriceModel) (ver now : String)
    (r : RequestData) : Option RentResult :=
  let sale_prediction := predict_sale_price model ver now r
  let annual_rent := sale_prediction.predicted_price_aed * (8/100)
  let contract_type := r.contract_type.getD "annual"
  if contract_type = "monthly" then
    let monthly_rent := annual_rent / 12
    if r.area_sqft.getD 1000 = 0 then none
    else some
      { predicted_price_aed := round2 monthly_rent,
        price_per_sqft_aed := round2 (monthly_rent / r.area_sqft.getD 1000),
        location_premium := sale_prediction.location_premium,
        confidence_score := sale_prediction.confidence_score,
        model_version := sale_prediction.model_version,
        prediction_timestamp := sale_prediction.prediction_timestamp,
        rental_type := "monthly" }
  else
    if r.area_sqft.getD 1000 = 0 then none
    else some
      { predicted_price_aed := round2 annual_rent,
        price_per_sqft_aed := round2 (annual_rent / r.area_sqft.getD 1000),
        location_premium := sale_prediction.location_premium,
        confidence_score := sale_prediction.confidence_score,
        model_version := sale_prediction.model_version,
        prediction_timestamp := sale_prediction.prediction_timestamp,
        rental_type := "annual" }

/-- The state a `DubaiRealEstateModel` holds after `__init__`/`load_model`
(model.py lines 15-33). -/
structure ModelState where
  model : PriceModel
  model_version : String

/-- `DubaiRealEstateModel.load_model` (model.py lines 22-33).
`path_exists` models `os.path.exists(self.model_path)`; `joblib_load`
models the outcome of `joblib.load` (`Except.error` = the call raised).
The `try/except` means the function always installs some model. -/
def load_model (path_exists : Bool)
    (joblib_load : Except String PriceModel) : PriceModel :=
  if path_exists then
    match joblib_load with
    | Except.ok m => m
    | Except.error _ => DummyModel.predict
  else DummyModel.predict

/-- `DubaiRealEstateModel.__init__` (model.py lines 15-20):
`env_model_version` models `os.getenv("MODEL_VERSION", "v1.0.0")` with
`none` for an unset variable. -/
def initModel (env_model_version : Option String) (path_exists : Bool)
    (joblib_load : Except String PriceModel) : ModelState :=
  { model := load_model path_exists joblib_load,
    model_version := env_model_version.getD "v1.0.0" }

/-- The worked scenario of spec section 8: apartment in dubai_marina,
2 bed / 2 bath, 1200 sqft, floor 10, 5 years old, parking only. -/
def scenarioReq : RequestData :=
  { property_type := some "apartment",
    location := some "dubai_marina",
    bedrooms := some 2,
    bathrooms := some 2,
    area_sqft := some 1200,
    floor := some 10,
    building_age_years := some 5,
    has_parking := some true,
    has_balcony := some false,
    has_gym := some false,
    has_pool := some false,
    near_metro := some false,
    furnished := some false }

/-- A request with `floor` present but equal to 0 and `building_age_years`
absent, exercising the falsy-default rule. -/
def floorZeroReq : RequestData :=
  { location := some "jlt",
    bedrooms := some 1,
    bathrooms := some 1,
    area_sqft := some 800,
    floor := some 0,
    building_age_years := none }

/-- A request whose `area_sqft` key is present with value 0. -/
def zeroAreaReq : RequestData :=
  { location := some "downtown", area_sqft := some 0 }

/-! ## Helper lemmas -/

theorem abs_roundHalfEven_sub (q : ℚ) : |(roundHalfEven q : ℚ) - q| ≤ 1/2 := by
  have h0 : (⌊q⌋ : ℚ) ≤ q := Int.floor_le q
  have h1 : q < ⌊q⌋ + 1 := Int.lt_floor_add_one q
  simp only [roundHalfEven]
  split_ifs with h h' h'' <;> rw [abs_le] <;> constructor <;> push_cast <;> linarith

theorem abs_round2_sub (q : ℚ) : |round2 q - q| ≤ 1/200 := by
  have h := abs_roundHalfEven_sub (q * 100)
  have : round2 q - q = ((roundHalfEven (q * 100) : ℚ) - q * 100) / 100 := by
    simp only [round2]; ring
  rw [this, abs_div]
  rw [show |(100 : ℚ)| = 100 by norm_num]
  linarith

/-- Projection of `predict_sale_price` used repeatedly below. -/
theorem sale_price_per_sqft_eq (model : PriceModel) (ver now : String) (r : RequestData) :
    (predict_sale_price model ver now r).price_per_sqft_aed
      = round2 (if 0 < r.area_sqft.getD 1000
          then model (encode_features r) / r.area_sqft.getD 1000 else 0) := rfl

/-- `predict_sale_price` never reads `contract_type`. -/
theorem sale_ignores_contract (model : PriceModel) (ver now : String) (r : RequestData)
    (c : Option String) :
    predict_sale_price model ver now { r with contract_type := c }
      = predict_sale_price model ver now r := rfl

/-- The annual branch of `predict_rent_price`, made explicit. -/
theorem rent_annual_eq (model : PriceModel) (ver now : String) (r : RequestData)
    (hc : r.contract_type.getD "annual" ≠ "monthly")
    (ha : r.area_sqft.getD 1000 ≠ 0) :
    predict_rent_price model ver now r = some
      { predicted_price_aed :=
          round2 ((predict_sale_price model ver now r).predicted_price_aed * (8/100)),
        price_per_sqft_aed :=
          round2 ((predict_sale_price model ver now r).predicted_price_aed * (8/100)
            / r.area_sqft.getD 1000),
        location_premium := (predict_sale_price model ver now r).location_premium,
        confidence_score := (predict_sale_price model ver now r).confidence_score,
        model_version := (predict_sale_price model ver now r).model_version,
        prediction_timestamp := (predict_sale_price model ver now r).prediction_timestamp,
        rental_type := "annual" } := by
  simp only [predict_rent_price]
  rw [if_neg hc, if_neg ha]

/-- The monthly branch of `predict_rent_price`, made explicit. -/
theorem rent_monthly_eq (model : PriceModel) (ver now : String) (r : RequestData)
    (hc : r.contract_type.getD "annual" = "monthly")
    (ha : r.area_sqft.getD 1000 ≠ 0) :
    predict_rent_price model ver now r = some
      { predicted_price_aed :=
          round2 ((predict_sale_price model ver now r).predicted_price_aed * (8/100) / 12),
        price_per_sqft_aed :=
          round2 ((predict_sale_price model ver now r).predicted_price_aed * (8/100) / 12
            / r.area_sqft.getD 1000),
        location_premium := (predict_sale_price model ver now r).location_premium,
        confidence_score := (predict_sale_price model ver now r).confidence_score,
        model_version := (predict_sale_price model ver now r).model_version,
        prediction_timestamp := (predict_sale_price model ver now r).prediction_timestamp,
        rental_type := "monthly" } := by
  simp only [predict_rent_price]
  rw [if_pos hc, if_neg ha]

/-- With the `area_sqft` key present and 0, `predict_rent_price` hits the
unguarded division and raises (`none`). -/
theorem rent_none_of_area_zero (model : PriceModel) (ver now : String) (r : RequestData)
    (ha : r.area_sqft.getD 1000 = 0) :
    predict_rent_price model ver now r = none := by
  simp only [predict_rent_price]
  split_ifs <;> simp_all

/-- Evaluation of the encoder on the worked scenario of spec section 8. -/
theorem encode_scenario : encode_features scenarioReq =
    [2, 2, 1200, 1, 1, 1/5, 1/10, 1, 0, 0, 0, 0, 0] := by
  norm_num [encode_features, scenarioReq, lookupD, location_map, property_type_map,
    boolToRat, List.lookup]

/-- Evaluation of the fallback model on the scenario's feature row. -/
theorem dummy_scenario : DummyModel.predict (encode_features scenarioReq) = 1282000 := by
  rw [encode_scenario]
  norm_num [DummyModel.predict]

/-- The sale prediction of spec section 8's scenario under the fallback model. -/
theorem sale_scenario_predicted :
    (predict_sale_price DummyModel.predict "v1.0.0" "t" scenarioReq).predicted_price_aed
      = 1282000 := by
  have harea : scenarioReq.area_sqft = some 1200 := rfl
  norm_num [predict_sale_price, dummy_scenario, harea, round2, roundHalfEven]

/-- The price-per-sqft of spec section 8's scenario under the fallback model. -/
theorem sale_scenario_pps :
    (predict_sale_price DummyModel.predict "v1.0.0" "t" scenarioReq).price_per_sqft_aed
      = 106833/100 := by
  have harea : scenarioReq.area_sqft = some 1200 := rfl
  norm_num [predict_sale_price, dummy_scenario, harea, round2, roundHalfEven]

/-! ## Claim C1 -/

/-- C1 as stated is false: `predicted_price_aed` and `price_per_sqft_aed`
are rounded to 2 decimals independently, so the exact quotient relation
fails.  On the section-8 scenario the returned `price_per_sqft_aed` is
1068.33 while `predicted_price_aed / area_sqft = 1282000 / 1200 = 3205/3`. -/
theorem c1_counterexample :
    ¬ ((predict_sale_price DummyModel.predict "v1.0.0" "t" scenarioReq).price_per_sqft_aed
        = (predict_sale_price DummyModel.predict "v1.0.0" "t" scenarioReq).predicted_price_aed
          / scenarioReq.area_sqft.getD 1000) := by
  rw [sale_scenario_pps, sale_scenario_predicted]
  have harea : scenarioReq.area_sqft = some 1200 := rfl
  rw [harea]
  norm_num

/-- C1 (amended): for positive area, `predicted_price_aed` is the 2-decimal
rounding of the raw model output and `price_per_sqft_aed` is the 2-decimal
rounding of that same raw output divided by the same area value; likewise
each rent result's two price fields are 2-decimal roundings of one raw rent
value and of that value divided by the same area.  The exact quotient
relation holds on the unrounded values, not on the returned fields. -/
theorem c1_price_per_sqft_rounding (model : PriceModel) (ver now : String)
    (r : RequestData) (h : 0 < r.area_sqft.getD 1000) :
    ((predict_sale_price model ver now r).predicted_price_aed
        = round2 (model (encode_features r)) ∧
      (predict_sale_price model ver now r).price_per_sqft_aed
        = round2 (model (encode_features r) / r.area_sqft.getD 1000)) ∧
    ∀ res : RentResult, predict_rent_price model ver now r = some res →
      ∃ raw : ℚ, res.predicted_price_aed = round2 raw ∧
        res.price_per_sqft_aed = round2 (raw / r.area_sqft.getD 1000) := by
  refine ⟨⟨rfl, ?_⟩, ?_⟩
  · rw [sale_price_per_sqft_eq, if_pos h]
  · intro res hres
    by_cases hc : r.contract_type.getD "annual" = "monthly"
    · rw [rent_monthly_eq model ver now r hc (ne_of_gt h)] at hres
      obtain rfl := (Option.some.injEq _ _).mp hres.symm
      exact ⟨(predict_sale_price model ver now r).predicted_price_aed * (8/100) / 12,
        rfl, rfl⟩
    · rw [rent_annual_eq model ver now r hc (ne_of_gt h)] at hres
      obtain rfl := (Option.some.injEq _ _).mp hres.symm
      exact ⟨(predict_sale_price model ver now r).predicted_price_aed * (8/100),
        rfl, rfl⟩

/-- Witness for C1's amended theorem at the section-8 scenario. -/
theorem c1_price_per_sqft_rounding_witness :
    (0 < scenarioReq.area_sqft.getD 1000) ∧
    (((predict_sale_price DummyModel.predict "v1.0.0" "t" scenarioReq).predicted_price_aed
        = round2 (DummyModel.predict (encode_features scenarioReq)) ∧
      (predict_sale_price DummyModel.predict "v1.0.0" "t" scenarioReq).price_per_sqft_aed
        = round2 (DummyModel.predict (encode_features scenarioReq)
            / scenarioReq.area_sqft.getD 1000)) ∧
    ∀ res : RentResult,
      predict_rent_price DummyModel.predict "v1.0.0" "t" scenarioReq = some res →
      ∃ raw : ℚ, res.predicted_price_aed = round2 raw ∧
        res.price_per_sqft_aed = round2 (raw / scenarioReq.area_sqft.getD 1000)) :=
  ⟨by norm_num [scenarioReq],
   c1_price_per_sqft_rounding DummyModel.predict "v1.0.0" "t" scenarioReq
     (by norm_num [scenarioReq])⟩

/-! ## Claim C2 -/

/-- C2: the fallback model computes
`500000 + row[3]*1.5*200000 + (row[2]/1000)*1.2*300000 + 50000*sum(row[7:])`
on any 13-feature row (reading the raw encoded location factor at index 3),
and on the section-8 scenario the sale prediction is 1,282,000 AED with
price-per-sqft 1068.33. -/
theorem c2_fallback_formula :
    (∀ x0 x1 x2 x3 x4 x5 x6 a0 a1 a2 a3 a4 a5 : ℚ,
      DummyModel.predict [x0, x1, x2, x3, x4, x5, x6, a0, a1, a2, a3, a4, a5]
        = 500000 + x3 * (15/10) * 200000 + (x2/1000) * (12/10) * 300000
          + 50000 * (a0 + a1 + a2 + a3 + a4 + a5)) ∧
    (predict_sale_price DummyModel.predict "v1.0.0" "t" scenarioReq).predicted_price_aed
      = 1282000 ∧
    (predict_sale_price DummyModel.predict "v1.0.0" "t" scenarioReq).price_per_sqft_aed
      = 106833/100 := by
  refine ⟨?_, sale_scenario_predicted, sale_scenario_pps⟩
  intro x0 x1 x2 x3 x4 x5 x6 a0 a1 a2 a3 a4 a5
  simp only [DummyModel.predict, List.getD, List.drop, List.sum_cons, List.sum_nil,
    List.get?, Option.getD_some]
  ring

/-! ## Claim C3 -/

/-- C3: when the artifact path does not exist, or deserialization raises,
initialization installs the fallback `DummyModel` (the `try/except` in
`load_model` means initialization is total — no exception escapes, which
the embedding expresses by `initModel` returning a plain `ModelState`),
and the model version is the environment override or the non-empty default
"v1.0.0". -/
theorem c3_fallback_on_load_failure (env : Option String) (pe : Bool)
    (jl : Except String PriceModel)
    (h : pe = false ∨ ∃ e, jl = Except.error e) :
    (initModel env pe jl).model = DummyModel.predict ∧
    (initModel env pe jl).model_version = env.getD "v1.0.0" ∧
    (initModel none pe jl).model_version ≠ "" := by
  refine ⟨?_, rfl, by simp [initModel]⟩
  rcases h with h | ⟨e, he⟩
  · simp [initModel, load_model, h]
  · subst he
    cases pe <;> simp [initModel, load_model]

/-- Witness for C3: missing artifact file, deserializer that would raise. -/
theorem c3_fallback_on_load_failure_witness :
    ((false = false ∨ ∃ e, (Except.error "io error" : Except String PriceModel)
        = Except.error e) ∧
      (initModel none false (Except.error "io error")).model = DummyModel.predict ∧
      (initModel none false (Except.error "io error")).model_version
        = (none : Option String).getD "v1.0.0" ∧
      (initModel none false (Except.error "io error")).model_version ≠ "") :=
  ⟨Or.inl rfl,
   c3_fallback_on_load_failure none false (Except.error "io error") (Or.inl rfl)⟩

/-! ## Claim C4 -/

/-- C4: in the encoded feature vector, position 6 (1-based; index 5) is 0.1
whenever `floor` is absent or exactly 0, and `v / 50` for any nonzero (in
particular any strictly positive) present value `v`; the same holds for
`building_age_years` at position 7 (index 6). -/
theorem c4_floor_age_falsy_default (r : RequestData) (v : ℚ) :
    ((r.floor = none ∨ r.floor = some 0) → (encode_features r).getD 5 0 = 1/10) ∧
    (r.floor = some v → 0 < v → (encode_features r).getD 5 0 = v / 50) ∧
    ((r.building_age_years = none ∨ r.building_age_years = some 0) →
      (encode_features r).getD 6 0 = 1/10) ∧
    (r.building_age_years = some v → 0 < v →
      (encode_features r).getD 6 0 = v / 50) := by
  refine ⟨?_, ?_, ?_, ?_⟩
  · rintro (h | h) <;> simp [encode_features, h, List.getD]
  · intro h hv
    simp [encode_features, h, List.getD, (ne_of_gt hv)]
  · rintro (h | h) <;> simp [encode_features, h, List.getD]
  · intro h hv
    simp [encode_features, h, List.getD, (ne_of_gt hv)]

/-- Witness for C4: `floorZeroReq` has `floor = 0` (→ 0.1) and no
`building_age_years` (→ 0.1); `scenarioReq` has `floor = 10` (→ 10/50) and
`building_age_years = 5` (→ 5/50). -/
theorem c4_floor_age_falsy_default_witness :
    (encode_features floorZeroReq).getD 5 0 = 1/10 ∧
    (encode_features floorZeroReq).getD 6 0 = 1/10 ∧
    (encode_features scenarioReq).getD 5 0 = 10/50 ∧
    (encode_features scenarioReq).getD 6 0 = 5/50 :=
  ⟨(c4_floor_age_falsy_default floorZeroReq 0).1 (Or.inr rfl),
   (c4_floor_age_falsy_default floorZeroReq 0).2.2.1 (Or.inl rfl),
   (c4_floor_age_falsy_default scenarioReq 10).2.1 rfl (by norm_num),
   (c4_floor_age_falsy_default scenarioReq 5).2.2.2 rfl (by norm_num)⟩

/-! ## Claim C5 -/

/-- C5: with `contract_type = "annual"` and nonzero area, the rent
prediction equals the sale prediction (the rounded figure the sale path
returns) times the fixed 8% yield, up to the final 2-decimal rounding:
it is exactly `round2` of that product, hence within 1/200 of it. -/
theorem c5_rent_to_sale_ratio (model : PriceModel) (ver now : String) (r : RequestData)
    (hc : r.contract_type = some "annual") (ha : r.area_sqft.getD 1000 ≠ 0) :
    ∃ res : RentResult, predict_rent_price model ver now r = some res ∧
      res.predicted_price_aed
        = round2 ((predict_sale_price model ver now r).predicted_price_aed * (8/100)) ∧
      |res.predicted_price_aed
        - (predict_sale_price model ver now r).predicted_price_aed * (8/100)| ≤ 1/200 := by
  have hc' : r.contract_type.getD "annual" ≠ "monthly" := by simp [hc]
  exact ⟨_, rent_annual_eq model ver now r hc' ha, rfl, abs_round2_sub _⟩

/-- Witness for C5 at the section-8 scenario with an annual contract. -/
theorem c5_rent_to_sale_ratio_witness :
    (({ scenarioReq with contract_type := some "annual" } : RequestData).contract_type
        = some "annual") ∧
    (∃ res : RentResult,
      predict_rent_price DummyModel.predict "v1.0.0" "t"
          { scenarioReq with contract_type := some "annual" } = some res ∧
      res.predicted_price_aed
        = round2 ((predict_sale_price DummyModel.predict "v1.0.0" "t"
            { scenarioReq with contract_type := some "annual" }).predicted_price_aed
              * (8/100)) ∧
      |res.predicted_price_aed
        - (predict_sale_price DummyModel.predict "v1.0.0" "t"
            { scenarioReq with contract_type := some "annual" }).predicted_price_aed
              * (8/100)| ≤ 1/200) :=
  ⟨rfl,
   c5_rent_to_sale_ratio DummyModel.predict "v1.0.0" "t"
     { scenarioReq with contract_type := some "annual" } rfl (by norm_num [scenarioReq])⟩

/-! ## Claim C6 -/

/-- C6: with nonzero area, requesting a monthly contract yields the annual
figure divided by 12 up to the two independent 2-decimal roundings (within
13/2400 < 0.01), and the `rental_type` fields are "monthly" and "annual"
respectively. -/
theorem c6_monthly_is_annual_div_12 (model : PriceModel) (ver now : String)
    (r : RequestData) (ha : r.area_sqft.getD 1000 ≠ 0) :
    ∃ rm ra : RentResult,
      predict_rent_price model ver now { r with contract_type := some "monthly" }
        = some rm ∧
      predict_rent_price model ver now { r with contract_type := some "annual" }
        = some ra ∧
      rm.rental_type = "monthly" ∧ ra.rental_type = "annual" ∧
      |rm.predicted_price_aed - ra.predicted_price_aed / 12| ≤ 13/2400 := by
  have hcm : ({ r with contract_type := some "monthly" } :
      RequestData).contract_type.getD "annual" = "monthly" := rfl
  have hca : ({ r with contract_type := some "annual" } :
      RequestData).contract_type.getD "annual" ≠ "monthly" := by simp
  have hm := rent_monthly_eq model ver now { r with contract_type := some "monthly" } hcm ha
  have han := rent_annual_eq model ver now { r with contract_type := some "annual" } hca ha
  rw [sale_ignores_contract] at hm
  rw [sale_ignores_contract] at han
  refine ⟨_, _, hm, han, rfl, rfl, ?_⟩
  dsimp only
  have h1 := abs_round2_sub
    ((predict_sale_price model ver now r).predicted_price_aed * (8/100) / 12)
  have h2 := abs_round2_sub
    ((predict_sale_price model ver now r).predicted_price_aed * (8/100))
  rw [abs_le] at h1 h2 ⊢
  constructor <;> linarith

/-- Witness for C6 at the section-8 scenario. -/
theorem c6_monthly_is_annual_div_12_witness :
    (scenarioReq.area_sqft.getD 1000 ≠ 0) ∧
    (∃ rm ra : RentResult,
      predict_rent_price DummyModel.predict "v1.0.0" "t"
          { scenarioReq with contract_type := some "monthly" } = some rm ∧
      predict_rent_price DummyModel.predict "v1.0.0" "t"
          { scenarioReq with contract_type := some "annual" } = some ra ∧
      rm.rental_type = "monthly" ∧ ra.rental_type = "annual" ∧
      |rm.predicted_price_aed - ra.predicted_price_aed / 12| ≤ 13/2400) :=
  ⟨by norm_num [scenarioReq],
   c6_monthly_is_annual_div_12 DummyModel.predict "v1.0.0" "t" scenarioReq
     (by norm_num [scenarioReq])⟩

/-! ## Claim C7 -/

/-- C7: the encoder always yields exactly 13 features in the documented
order — bedrooms, bathrooms, area_sqft, location_factor, property_factor,
floor_normalized, age_normalized, then the six 0/1 amenity flags — and is
deterministic (a pure function of the request). -/
theorem c7_encode_13_fixed_order (r : RequestData) :
    (encode_features r).length = 13 ∧
    (encode_features r).getD 0 0 = r.bedrooms.getD 0 ∧
    (encode_features r).getD 1 0 = r.bathrooms.getD 0 ∧
    (encode_features r).getD 2 0 = r.area_sqft.getD 1000 ∧
    (encode_features r).getD 3 0
      = lookupD location_map (r.location.getD "dubai_marina") 1 ∧
    (encode_features r).getD 4 0
      = lookupD property_type_map (r.property_type.getD "apartment") 1 ∧
    (encode_features r).getD 5 0
      = (match r.floor with
         | some v => if v = 0 then 1/10 else v / 50
         | none => 1/10) ∧
    (encode_features r).getD 6 0
      = (match r.building_age_years with
         | some v => if v = 0 then 1/10 else v / 50
         | none => 1/10) ∧
    (encode_features r).getD 7 0 = boolToRat (r.has_parking.getD true) ∧
    (encode_features r).getD 8 0 = boolToRat (r.has_balcony.getD false) ∧
    (encode_features r).getD 9 0 = boolToRat (r.has_gym.getD false) ∧
    (encode_features r).getD 10 0 = boolToRat (r.has_pool.getD false) ∧
    (encode_features r).getD 11 0 = boolToRat (r.near_metro.getD false) ∧
    (encode_features r).getD 12 0 = boolToRat (r.furnished.getD false) ∧
    encode_features r = encode_features r :=
  ⟨rfl, rfl, rfl, rfl, rfl, rfl, rfl, rfl, rfl, rfl, rfl, rfl, rfl, rfl, rfl⟩

/-! ## Claim C8 -/

/-- C8: every rent result carries location_premium, confidence_score,
model_version and prediction_timestamp over unchanged from the sale
prediction it computes internally for the same attributes. -/
theorem c8_rent_carries_sale_fields (model : PriceModel) (ver now : String)
    (r : RequestData) (res : RentResult)
    (h : predict_rent_price model ver now r = some res) :
    res.location_premium = (predict_sale_price model ver now r).location_premium ∧
    res.confidence_score = (predict_sale_price model ver now r).confidence_score ∧
    res.model_version = (predict_sale_price model ver now r).model_version ∧
    res.prediction_timestamp
      = (predict_sale_price model ver now r).prediction_timestamp := by
  rcases eq_or_ne (r.area_sqft.getD 1000) 0 with ha | ha
  · rw [rent_none_of_area_zero model ver now r ha] at h
    cases h
  · by_cases hc : r.contract_type.getD "annual" = "monthly"
    · rw [rent_monthly_eq model ver now r hc ha] at h
      obtain rfl := (Option.some.injEq _ _).mp h.symm
      exact ⟨rfl, rfl, rfl, rfl⟩
    · rw [rent_annual_eq model ver now r hc ha] at h
      obtain rfl := (Option.some.injEq _ _).mp h.symm
      exact ⟨rfl, rfl, rfl, rfl⟩

/-- Witness for C8: the all-defaults request under a constant-zero model. -/
theorem c8_rent_carries_sale_fields_witness :
    ∃ res : RentResult,
      predict_rent_price (fun _ => 0) "v" "t" {} = some res ∧
      (res.location_premium
          = (predict_sale_price (fun _ => 0) "v" "t" {}).location_premium ∧
        res.confidence_score
          = (predict_sale_price (fun _ => 0) "v" "t" {}).confidence_score ∧
        res.model_version = (predict_sale_price (fun _ => 0) "v" "t" {}).model_version ∧
        res.prediction_timestamp
          = (predict_sale_price (fun _ => 0) "v" "t" {}).prediction_timestamp) := by
  have h0 := rent_annual_eq (fun _ => 0) "v" "t" {} (by simp) (by norm_num)
  exact ⟨_, h0, c8_rent_carries_sale_fields (fun _ => 0) "v" "t" {} _ h0⟩

/-! ## Claim C9 -/

/-- C9: the division guard exists only on the sale path.  With the
`area_sqft` key present and exactly 0, `predict_sale_price` returns
`price_per_sqft_aed = 0`, while `predict_rent_price` raises
`ZeroDivisionError` (`none`); under the precondition `area_sqft > 0` the
rent path's error branch is unreachable. -/
theorem c9_area_guard_asymmetry (model : PriceModel) (ver now : String)
    (r : RequestData) :
    (r.area_sqft = some 0 →
      (predict_sale_price model ver now r).price_per_sqft_aed = 0 ∧
      predict_rent_price model ver now r = none) ∧
    (0 < r.area_sqft.getD 1000 →
      (predict_rent_price model ver now r).isSome = true) := by
  constructor
  · intro h0
    have ha : r.area_sqft.getD 1000 = 0 := by rw [h0]; rfl
    refine ⟨?_, rent_none_of_area_zero model ver now r ha⟩
    rw [sale_price_per_sqft_eq, ha]
    norm_num [round2, roundHalfEven]
  · intro hpos
    by_cases hc : r.contract_type.getD "annual" = "monthly"
    · rw [rent_monthly_eq model ver now r hc (ne_of_gt hpos)]; rfl
    · rw [rent_annual_eq model ver now r hc (ne_of_gt hpos)]; rfl

/-- Witness for C9: `zeroAreaReq` has `area_sqft = 0`; the all-defaults
request has no `area_sqft` key, so the default 1000 applies. -/
theorem c9_area_guard_asymmetry_witness :
    ((predict_sale_price DummyModel.predict "v1.0.0" "t" zeroAreaReq).price_per_sqft_aed
        = 0 ∧
      predict_rent_price DummyModel.predict "v1.0.0" "t" zeroAreaReq = none) ∧
    (0 < (({} : RequestData).area_sqft.getD 1000) ∧
      (predict_rent_price DummyModel.predict "v1.0.0" "t" {}).isSome = true) :=
  ⟨(c9_area_guard_asymmetry DummyModel.predict "v1.0.0" "t" zeroAreaReq).1 rfl,
   by norm_num,
   (c9_area_guard_asymmetry DummyModel.predict "v1.0.0" "t" {}).2 (by norm_num)⟩

/-! ## Claim C10 -/

/-- C10: any `contract_type` other than the exact string "monthly" —
absent, misspelled "Monthly", "weekly", anything — silently takes the
annual branch: the result is the annual rent with `rental_type = "annual"`,
and the value is never rejected. -/
theorem c10_nonmonthly_contract_is_annual (model : PriceModel) (ver now : String)
    (r : RequestData) (hc : r.contract_type.getD "annual" ≠ "monthly")
    (ha : r.area_sqft.getD 1000 ≠ 0) :
    ∃ res : RentResult, predict_rent_price model ver now r = some res ∧
      res.rental_type = "annual" ∧
      res.predicted_price_aed
        = round2 ((predict_sale_price model ver now r).predicted_price_aed * (8/100)) :=
  ⟨_, rent_annual_eq model ver now r hc ha, rfl, rfl⟩

/-- Witness for C10: the misspelled contract string "Monthly" on the
section-8 scenario is treated as annual. -/
theorem c10_nonmonthly_contract_is_annual_witness :
    (({ scenarioReq with contract_type := some "Monthly" } :
        RequestData).contract_type.getD "annual" ≠ "monthly") ∧
    (∃ res : RentResult,
      predict_rent_price DummyModel.predict "v1.0.0" "t"
          { scenarioReq with contract_type := some "Monthly" } = some res ∧
      res.rental_type = "annual" ∧
      res.predicted_price_aed
        = round2 ((predict_sale_price DummyModel.predict "v1.0.0" "t"
            { scenarioReq with contract_type := some "Monthly" }).predicted_price_aed
              * (8/100))) :=
  ⟨by simp,
   c10_nonmonthly_contract_is_annual DummyModel.predict "v1.0.0" "t"
     { scenarioReq with contract_type := some "Monthly" } (by simp)
     (by norm_num [scenarioReq])⟩

end DubaiRealEstate
